import Mathlib

set_option maxRecDepth 8192

/-!
Shallow embedding of `.github/zap/scripts/generate_report.py`: a script that
renders a ZAP scan-result JSON document into a static HTML report.

The embedding models:
- the input document shape the script actually inspects (`site` list, site
  dict with `@name` and `alerts`, alert dicts, instance dicts) — fields the
  script reads with `dict.get` become `Option`-typed fields;
- Python primitives the script relies on: `int(str)` (as a fallible
  `pyInt : String → Option Int`, since `int()` raises on non-numeric input),
  `str.isdigit`, `str.split`, truthiness of `str.strip()`, `html.escape`,
  and `str.replace` of a newline by a break tag;
- `generate_html`'s data pipeline (site extraction, severity filtering,
  per-severity counting, and the generated HTML fragments for the summary
  table, the alert-list table and the alert-detail section);
- `main`'s command-line handling, modelled over an environment recording
  whether each file operation succeeds (the final regular-expression
  substitution of the fragments into the template string and the wall-clock
  timestamp are outside the model; neither can raise, so the success or
  failure of a run does not depend on them).
-/

namespace ZapReport

/-! ## Python primitives -/

/-- Value of a list of decimal digits, most significant first
(the numeric value computed by Python `int` on a digit string;
leading zeros are allowed, as in `int("079") = 79`). -/
def digitsVal (cs : List Char) : Nat :=
  cs.foldl (fun acc c => 10 * acc + (c.toNat - 48)) 0

/-- Model of Python `int(s)` on a string: surrounding ASCII whitespace is
stripped, an optional single sign is allowed, and the rest must be a
non-empty run of decimal digits; any other string raises `ValueError`,
modelled as `none`. -/
def pyInt (s : String) : Option Int :=
  let t := ((s.data.dropWhile Char.isWhitespace).reverse.dropWhile
      Char.isWhitespace).reverse
  match t with
  | [] => none
  | c :: cs =>
    if c = '-' then
      if cs ≠ [] ∧ cs.all Char.isDigit then some (-(digitsVal cs : Int)) else none
    else if c = '+' then
      if cs ≠ [] ∧ cs.all Char.isDigit then some (digitsVal cs : Int) else none
    else if (c :: cs).all Char.isDigit then some (digitsVal (c :: cs) : Int)
    else none

/-- Model of Python `s.split('\n')`: split at every newline, keeping empty
pieces; the result is never empty (`''.split('\n') == ['']`). -/
def splitLinesCh : List Char → List (List Char)
  | [] => [[]]
  | c :: cs =>
    match splitLinesCh cs with
    | [] => [[c]]
    | h :: t => if c = '\n' then [] :: h :: t else (c :: h) :: t

/-- `reference.split('\n')` from line 174 of the script. -/
def pySplitNl (s : String) : List String :=
  (splitLinesCh s.data).map (fun l => ⟨l⟩)

/-- Truthiness of Python `ref.strip()`: true exactly when the string has at
least one non-whitespace character. -/
def stripTruthy (s : String) : Bool :=
  s.data.any (fun c => !c.isWhitespace)

/-- Per-character action of Python `html.escape(s)` (with its default
`quote=True`): the five markup-significant characters become entities,
everything else passes through.  `html.escape` performs the five
`str.replace` calls with `&` first, which is extensionally this
character-wise map. -/
def escapeChar (c : Char) : List Char :=
  if c = '&' then "&amp;".data
  else if c = '<' then "&lt;".data
  else if c = '>' then "&gt;".data
  else if c = Char.ofNat 34 then "&quot;".data
  else if c = Char.ofNat 39 then "&#x27;".data
  else [c]

/-- Model of Python `html.escape(s)` (quote=True). -/
def htmlEscape (s : String) : String :=
  ⟨(s.data.map escapeChar).flatten⟩

/-- Model of `s.replace('\n', '<br>')` (lines 171–172): the pattern is a
single character, so the replacement is a character-wise map. -/
def newlineToBr (s : String) : String :=
  ⟨(s.data.map (fun c => if c = '\n' then "<br>".data else [c])).flatten⟩

/-! ## Data model of the input document

Only the keys the script reads are modelled.  A field read with
`dict.get(key, default)` is an `Option`; `absent` covers both a missing key
and the `.get` default being taken.  String-valued fields are modelled as
strings (the shape ZAP's JSON report uses). -/

/-- One entry of an alert's `instances` array (script lines 183–189). -/
structure Instance where
  uri : Option String
  method : Option String
  param : Option String
  attack : Option String
  evidence : Option String
  otherinfo : Option String
  deriving DecidableEq, Repr

/-- One entry of a site's `alerts` array.  `risk` is the legacy field name
for the severity used by earlier ZAP schema variants; it is part of the
input shape but the script under `src/` never reads it. -/
structure Alert where
  pluginid : Option String
  alert : Option String
  name : Option String
  riskcode : Option String
  risk : Option String
  desc : Option String
  solution : Option String
  reference : Option String
  cweid : Option String
  wascid : Option String
  instances : Option (List Instance)
  deriving DecidableEq, Repr

/-- One entry of the top-level `site` array: either not a JSON object
(the script's `isinstance(site_data, dict)` fails) or an object with the
two keys the script reads. -/
inductive SiteEntry where
  | nonDict : SiteEntry
  | dict (name : Option String) (alerts : Option (List Alert)) : SiteEntry
  deriving DecidableEq, Repr

/-- The top-level `site` value: missing, present but not a list
(the script's `isinstance(site_list, list)` fails), or a list. -/
inductive SiteField where
  | absent : SiteField
  | nonList : SiteField
  | list (sites : List SiteEntry) : SiteField
  deriving DecidableEq, Repr

/-- The parts of the top-level document the script reads:
`zap_data.get('site', [])` and `zap_data.get('@version', 'Unknown')`. -/
structure ZapData where
  site : SiteField
  version : Option String
  deriving DecidableEq, Repr

/-! ## generate_html: data extraction and filtering (lines 33–51) -/

/-- Lines 33–40: extract the first site's `@name` and `alerts`.  A missing
`site` key defaults to `[]`; a non-list value or an empty list yields
`('', [])`; a first entry that is not a dict also yields `('', [])`. -/
def extract (d : ZapData) : String × List Alert :=
  match d.site with
  | .list (.dict n as :: _) => (n.getD "", as.getD [])
  | .list (.nonDict :: _) => ("", [])
  | _ => ("", [])

/-- `int(alert.get('riskcode', '0'))` — the severity conversion used on
lines 44, 49, 134 and 165.  `none` models the `ValueError` raised when the
value is not a valid integer literal. -/
def riskOf (a : Alert) : Option Int :=
  pyInt (a.riskcode.getD "0")

/-- The integer severity of an alert once conversion is known to succeed
(every use after the line-44 filter re-parses the same string, so the
re-parse cannot fail there). -/
def riskD (a : Alert) : Int :=
  (riskOf a).getD 0

/-- Line 44: `[alert for alert in all_alerts if int(alert.get('riskcode', '0')) > 0]`.
Python evaluates `int()` on every element, raising on the first
non-numeric `riskcode`; the whole comprehension therefore fails (`none`)
as soon as any element's conversion fails. -/
def filteredAlerts (all : List Alert) : Option (List Alert) :=
  if all.all (fun a => (riskOf a).isSome)
  then some (all.filter (fun a => 0 < riskD a))
  else none

/-- Lines 47–51: the count of filtered alerts whose severity equals `r`
(the loop body increments `alert_counts[risk]` only when
`risk in alert_counts`, i.e. for `r ∈ {3, 2, 1}`). -/
def countRisk (alerts : List Alert) (r : Int) : Nat :=
  alerts.countP (fun a => riskD a == r)

/-- `get_risk_string` (lines 19–27). -/
def get_risk_string (risk_level : Int) : String :=
  if risk_level = 3 then "High"
  else if risk_level = 2 then "Medium"
  else if risk_level = 1 then "Low"
  else if risk_level = 0 then "Informational"
  else "Unknown"

/-- `alert.get('alert', alert.get('name', 'Unknown Alert'))`
(lines 133 and 164). -/
def alertName (a : Alert) : String :=
  a.alert.getD (a.name.getD "Unknown Alert")

/-! ## generate_html: fragment builders (lines 56–268)

The Python f-strings are transcribed as concatenations of named literal
segments (`…P1`, `…P2`, …) with the interpolated values in between, in
source order.  Tabs and newlines of the triple-quoted literals are kept. -/

/-- Line 62 and 65: the replacement for the `<h2>` site-heading region. -/
def siteHeadingOf (site : String) : String :=
  if site ≠ "" then "<h2>Site: " ++ site ++ "</h2>" else "<h2></h2>"

/-- Lines 87–93: opening of the summary table. -/
def summaryHeader : String :=
  "\n\t<h3 class=\"left-header\">Summary of Alerts</h3>\n\t<table class=\"summary\">\n\t\t<tr>\n\t\t\t<th width=\"45%\" height=\"24\">Risk Level</th>\n\t\t\t<th width=\"55%\" align=\"center\">Number of Alerts</th>\n\t\t</tr>"

/-- Lines 99–107: one summary-table row for a risk level and its count. -/
def summaryRow (risk_level : Int) (count : Nat) : String :=
  "\n\t\t<tr>\n\t\t\t<td class=\"risk-" ++ toString risk_level
    ++ "\">\n\t\t\t\t<div>" ++ get_risk_string risk_level
    ++ "</div>\n\t\t\t</td>\n\t\t\t<td align=\"center\">\n\t\t\t\t<div>" ++ toString count
    ++ "</div>\n\t\t\t</td>\n\t\t</tr>"

/-- Lines 109–111: closing of the summary table. -/
def summaryFooter : String :=
  "\n\t</table>\n\t<div class=\"spacer-lg\"></div>"

/-- Lines 87–111: the full summary section; the `for risk_level in [3, 2, 1]`
loop unrolled in its fixed order High, Medium, Low. -/
def summarySection (highC medC lowC : Nat) : String :=
  summaryHeader ++ summaryRow 3 highC ++ summaryRow 2 medC ++ summaryRow 1 lowC
    ++ summaryFooter

/-- Lines 122–129: opening of the alert-list table. -/
def alertListHeader : String :=
  "\n\t<h3>Alerts</h3>\n\t<table class=\"alerts\">\n\t\t<tr>\n\t\t\t<th width=\"60%\" height=\"24\">Name</th>\n\t\t\t<th width=\"20%\" align=\"center\">Risk Level</th>\n\t\t\t<th width=\"20%\" align=\"center\">Number of Instances</th>\n\t\t</tr>"

/-- Lines 131–144: one alert-list row. -/
def alertListRow (a : Alert) : String :=
  "\n\t\t<tr>\n\t\t\t<td><a href=\"#" ++ a.pluginid.getD ""
    ++ "\">" ++ htmlEscape (alertName a)
    ++ "</a></td>\n\t\t\t<td align=\"center\" class=\"risk-" ++ toString (riskD a)
    ++ "\">" ++ get_risk_string (riskD a)
    ++ "</td>\n\t\t\t<td align=\"center\">" ++ toString (a.instances.getD []).length
    ++ "</td>\n\t\t</tr>"

/-- Lines 146–148: closing of the alert-list table. -/
def alertListFooter : String :=
  "\n\t</table>\n\t<div class=\"spacer-lg\"></div>"

/-- Lines 122–148: the full alert-list section. -/
def alertListSection (alerts : List Alert) : String :=
  alertListHeader ++ String.join (alerts.map alertListRow) ++ alertListFooter

/-- Line 174: the hyperlink list built from the `reference` field — one
anchor per line of `reference.split('\n')` that is non-blank
(`if ref.strip()`), each with the line as both href and display text. -/
def refLinks (reference : String) : List String :=
  ((pySplitNl reference).filter stripTruthy).map
    (fun ref => "<a href=\"" ++ ref ++ "\">" ++ ref ++ "</a>")

/-- Line 174: `'<br>'.join(...)` over the reference links. -/
def referencesHtml (reference : String) : String :=
  String.intercalate "<br>" (refLinks reference)

/-- Lines 176–177: `int(cweid) if cweid and str(cweid).isdigit() else 0`.
`cweid` truthiness is non-emptiness; `isdigit` requires every character to
be a decimal digit. -/
def cweidInt (a : Alert) : Nat :=
  let cweid := a.cweid.getD ""
  if cweid.data ≠ [] ∧ cweid.data.all Char.isDigit then digitsVal cweid.data else 0

/-- Lines 178–179: the same conversion for `wascid`. -/
def wascidInt (a : Alert) : Nat :=
  let wascid := a.wascid.getD ""
  if wascid.data ≠ [] ∧ wascid.data.all Char.isDigit then digitsVal wascid.data else 0

/-- Line 217: the CWE hyperlink, rendered only for a positive id. -/
def cweHtml (a : Alert) : String :=
  if cweidInt a > 0 then
    "<a href=\"https://cwe.mitre.org/data/definitions/" ++ toString (cweidInt a)
      ++ ".html\">" ++ toString (cweidInt a) ++ "</a>"
  else ""

/-- Line 218: the WASC id text, rendered only for a positive id. -/
def wascHtml (a : Alert) : String :=
  if wascidInt a > 0 then toString (wascidInt a) else ""

/-- Literal segments of the per-instance f-string (lines 191–215). -/
def instP1 : String :=
  "\n\t\t\t<tr>\n\t\t\t\t<td width=\"20%\" class=\"indent1\">URL</td>\n\t\t\t\t<td width=\"80%\"><a href=\""

def instP2 : String := "\">"

def instP3 : String :=
  "</a></td>\n\t\t\t</tr>\n\t\t\t<tr>\n\t\t\t\t<td width=\"20%\" class=\"indent2\">Method</td>\n\t\t\t\t<td width=\"80%\">"

def instP4 : String :=
  "</td>\n\t\t\t</tr>\n\t\t\t<tr>\n\t\t\t\t<td width=\"20%\" class=\"indent2\">Parameter</td>\n\t\t\t\t<td width=\"80%\">"

def instP5 : String :=
  "</td>\n\t\t\t</tr>\n\t\t\t<tr>\n\t\t\t\t<td width=\"20%\" class=\"indent2\">Attack</td>\n\t\t\t\t<td width=\"80%\">"

def instP6 : String :=
  "</td>\n\t\t\t</tr>\n\t\t\t<tr>\n\t\t\t\t<td width=\"20%\" class=\"indent2\">Evidence</td>\n\t\t\t\t<td width=\"80%\">"

def instP7 : String :=
  "</td>\n\t\t\t</tr>\n\t\t\t<tr>\n\t\t\t\t<td width=\"20%\" class=\"indent2\">Other Info</td>\n\t\t\t\t<td width=\"80%\">"

def instP8 : String := "</td>\n\t\t\t</tr>"

/-- Lines 182–215: the HTML block for one instance.  Every interpolated
field is `html.escape`d (lines 184–189). -/
def instanceHtml (inst : Instance) : String :=
  instP1 ++ htmlEscape (inst.uri.getD "")
    ++ instP2 ++ htmlEscape (inst.uri.getD "")
    ++ instP3 ++ htmlEscape (inst.method.getD "")
    ++ instP4 ++ htmlEscape (inst.param.getD "")
    ++ instP5 ++ htmlEscape (inst.attack.getD "")
    ++ instP6 ++ htmlEscape (inst.evidence.getD "")
    ++ instP7 ++ htmlEscape (inst.otherinfo.getD "")
    ++ instP8

/-- Literal segments of the per-alert detail f-string (lines 220–260). -/
def detailP1 : String :=
  "\n\t<table class=\"results\">\n\t\t<tr height=\"24\">\n\t\t\t<th width=\"20%\" class=\"risk-"

def detailP2 : String := "\"><a id=\""

def detailP3 : String := "\"></a>\n\t\t\t\t<div>"

def detailP4 : String := "</div></th>\n\t\t\t<th class=\"risk-"

def detailP5 : String := "\">"

def detailP6 : String :=
  "</th>\n\t\t</tr>\n\t\t<tr>\n\t\t\t<td width=\"20%\">Description</td>\n\t\t\t<td width=\"80%\">"

def detailP7 : String :=
  "</td>\n\t\t</tr>\n\t\t<tr vAlign=\"top\">\n\t\t\t<td colspan=\"2\"></td>\n\t\t</tr>\n\t\t"

def detailP8 : String :=
  "\n\t\t<tr>\n\t\t\t<td width=\"20%\">Instances</td>\n\t\t\t<td width=\"80%\">"

def detailP9 : String :=
  "</td>\n\t\t</tr>\n\t\t<tr>\n\t\t\t<td width=\"20%\">Solution</td>\n\t\t\t<td width=\"80%\">"

def detailP10 : String :=
  "</td>\n\t\t</tr>\n\t\t<tr>\n\t\t\t<td width=\"20%\">Reference</td>\n\t\t\t<td width=\"80%\">"

def detailP11 : String :=
  "</td>\n\t\t</tr>\n\t\t<tr>\n\t\t\t<td width=\"20%\">CWE Id</td>\n\t\t\t<td width=\"80%\">"

def detailP12 : String :=
  "</td>\n\t\t</tr>\n\t\t<tr>\n\t\t\t<td width=\"20%\">WASC Id</td>\n\t\t\t<td width=\"80%\">"

def detailP13 : String :=
  "</td>\n\t\t</tr>\n\t\t<tr>\n\t\t\t<td width=\"20%\">Plugin Id</td>\n\t\t\t<td width=\"80%\"><a href=\"https://www.zaproxy.org/docs/alerts/"

def detailP14 : String := "/\">"

def detailP15 : String :=
  "</a></td>\n\t\t</tr>\n\t</table>\n\t<div class=\"spacer\"></div>"

/-- Lines 162–260: the detail block for one alert.  `description` and
`solution` are inserted without escaping, only with newline-to-break
conversion (lines 170–172); the name is escaped (line 164); the instance
blocks are concatenated in order (lines 182–215). -/
def alertDetailBlock (a : Alert) : String :=
  detailP1 ++ toString (riskD a)
    ++ detailP2 ++ a.pluginid.getD ""
    ++ detailP3 ++ get_risk_string (riskD a)
    ++ detailP4 ++ toString (riskD a)
    ++ detailP5 ++ htmlEscape (alertName a)
    ++ detailP6 ++ newlineToBr (a.desc.getD "")
    ++ detailP7 ++ String.join ((a.instances.getD []).map instanceHtml)
    ++ detailP8 ++ toString (a.instances.getD []).length
    ++ detailP9 ++ newlineToBr (a.solution.getD "")
    ++ detailP10 ++ referencesHtml (a.reference.getD "")
    ++ detailP11 ++ cweHtml a
    ++ detailP12 ++ wascHtml a
    ++ detailP13 ++ a.pluginid.getD ""
    ++ detailP14 ++ a.pluginid.getD ""
    ++ detailP15

/-- Lines 159–160: heading of the detail section. -/
def detailsHeader : String := "\n\t<h3>Alert Detail</h3>"

/-- Lines 159–260: the full alert-detail section. -/
def alertDetailsSection (alerts : List Alert) : String :=
  detailsHeader ++ String.join (alerts.map alertDetailBlock)

/-! ## generate_html as a whole -/

/-- Everything `generate_html` computes from the document and substitutes
into the template: the site heading replacement, the three summary counts,
and the three generated sections.  (The timestamp heading and the fixed
title literal carry no document data; the timestamp is wall-clock time and
is outside the model.) -/
structure Rendered where
  site : String
  siteHeading : String
  high : Nat
  medium : Nat
  low : Nat
  summary : String
  alertList : String
  details : String
  versionHeading : String
  deriving DecidableEq, Repr

/-- The data pipeline of `generate_html` (lines 29–270).  `none` models the
uncaught `ValueError` from `int()` on a non-numeric `riskcode` (line 44);
no other step of the function can raise: the `.get` calls all have
defaults, the cweid/wascid conversions are guarded by `isdigit`, and
`re.sub` merely leaves a non-matching template unchanged. -/
def generateHtmlData (d : ZapData) : Option Rendered :=
  match filteredAlerts (extract d).2 with
  | none => none
  | some alerts =>
    some {
      site := (extract d).1
      siteHeading := siteHeadingOf (extract d).1
      high := countRisk alerts 3
      medium := countRisk alerts 2
      low := countRisk alerts 1
      summary := summarySection (countRisk alerts 3) (countRisk alerts 2)
        (countRisk alerts 1)
      alertList := alertListSection alerts
      details := alertDetailsSection alerts
      versionHeading := "<h3>ZAP Version: " ++ d.version.getD "Unknown" ++ "</h3>"
    }

/-! ## main (lines 272–292) -/

/-- Outcome of the file operations `main` performs, abstracting the file
system: the content `load_template` returns (`none`: the open or read
raised), the parsed document `load_zap_json` returns (`none`: the file is
missing or its JSON is malformed — both raise), and whether opening and
writing the output path succeeds. -/
structure Env where
  template : Option String
  zapJson : Option ZapData
  writeOk : Bool
  deriving DecidableEq, Repr

/-- Observable outcome of one run: the process exit code (`1` for both
`sys.exit(1)` and an uncaught exception), the lines printed to stdout, and
the successfully written output files with their rendered content. -/
structure RunOutcome where
  exitCode : Nat
  stdout : List String
  written : List (String × Rendered)
  deriving DecidableEq, Repr

/-- Line 274. -/
def usageMsg : String :=
  "Usage: generate_report.py <template.html> <zap-report.json> <output.html>"

/-- `main` (lines 272–292) over the full `sys.argv` (program name first, so
three positional arguments mean `argv.length = 4`).  Steps in source
order: argument-count check, `load_template`, `load_zap_json`,
`generate_html`, write, success message.  A failure at any step aborts the
run with exit code 1 before any later step. -/
def mainRun (argv : List String) (env : Env) : RunOutcome :=
  if argv.length ≠ 4 then
    { exitCode := 1, stdout := [usageMsg], written := [] }
  else
    let output_path := argv.getD 3 ""
    match env.template with
    | none => { exitCode := 1, stdout := [], written := [] }
    | some _ =>
      match env.zapJson with
      | none => { exitCode := 1, stdout := [], written := [] }
      | some zap_data =>
        match generateHtmlData zap_data with
        | none => { exitCode := 1, stdout := [], written := [] }
        | some r =>
          if env.writeOk then
            { exitCode := 0,
              stdout := ["Report generated successfully: " ++ output_path],
              written := [(output_path, r)] }
          else { exitCode := 1, stdout := [], written := [] }

/-! ## Concrete documents used by witnesses and counterexamples -/

/-- An alert carrying only a `riskcode` value (or none). -/
def mkAlert (rc : Option String) : Alert :=
  { pluginid := none, alert := none, name := none, riskcode := rc, risk := none,
    desc := none, solution := none, reference := none, cweid := none,
    wascid := none, instances := none }

/-- A document with one site of the given name and alerts. -/
def mkZap (nm : String) (alerts : List Alert) : ZapData :=
  { site := .list [.dict (some nm) (some alerts)], version := none }

/-- A report whose single alert has `riskcode` `"4"`: it passes the
severity-positive filter but matches none of the three summary counters. -/
def reportRisk4 : ZapData := mkZap "s" [mkAlert (some "4")]

/-- A report whose single alert has `riskcode` `"3"`. -/
def reportRisk3 : ZapData := mkZap "s" [mkAlert (some "3")]

/-- An alert with no `riskcode` key but a legacy `risk` key of `"3"`. -/
def legacyRiskAlert : Alert := { mkAlert none with risk := some "3" }

/-- An alert with `riskcode` `"1"`, `cweid` `"79"` and `wascid` `"15"`. -/
def cweExAlert : Alert :=
  { mkAlert (some "1") with cweid := some "79", wascid := some "15" }

/-- An instance with all fields present. -/
def instEx : Instance :=
  { uri := some "http://x/?q=<s>", method := some "GET", param := some "q",
    attack := some "<script>", evidence := some "<s>", otherinfo := some "o" }

/-- A report whose single alert has the non-numeric `riskcode` `"high"`. -/
def reportRiskHigh : ZapData := mkZap "s" [mkAlert (some "high")]

/-- An alert with numeric `riskcode` but non-numeric `cweid`/`wascid`. -/
def oddIdsAlert : Alert :=
  { mkAlert (some "3") with cweid := some "not-a-number", wascid := some "xx" }

/-- A report whose single alert has numeric `riskcode` but non-numeric
`cweid` and `wascid`. -/
def reportOddIds : ZapData := mkZap "s" [oddIdsAlert]

/-- The `Rendered` value used as a `getD` fallback. -/
def rendDefault : Rendered :=
  { site := "", siteHeading := "", high := 0, medium := 0, low := 0,
    summary := "", alertList := "", details := "", versionHeading := "" }

/-- An environment in which every file operation succeeds. -/
def envOk : Env :=
  { template := some "T", zapJson := some (mkZap "" []), writeOk := true }

/-- An environment in which `load_zap_json` fails (missing file or
malformed JSON) while the template is readable. -/
def envNoJson : Env :=
  { template := some "T", zapJson := none, writeOk := true }

/-- Spec-side reading of "the id value parses to a positive integer": the
value is a non-empty string of decimal digits with positive numeric
value. -/
def ParsesToPosInt (s : String) : Prop :=
  s.data ≠ [] ∧ s.data.all Char.isDigit = true ∧ 0 < digitsVal s.data

instance (s : String) : Decidable (ParsesToPosInt s) := by
  unfold ParsesToPosInt
  infer_instance

/-- Spec-side shape of a reference link: a hyperlink whose display text
equals its href URL. -/
def specRefAnchor (u : String) : String :=
  "<a href=\"" ++ u ++ "\">" ++ u ++ "</a>"

/-- Spec-side: the non-blank lines of a field, obtained by splitting the
field on newline characters. -/
def specNonBlankLines (s : String) : List String :=
  (pySplitNl s).filter stripTruthy

/-! ## Shared lemmas -/

/-- `extract` on a one-site document returns that site's name and alerts. -/
theorem extract_mkZap (nm : String) (alerts : List Alert) :
    extract (mkZap nm alerts) = (nm, alerts) := rfl

/-- The three counters of lines 47–51 partition a list of alerts whose
severities all lie in {1, 2, 3}. -/
theorem countRisk_partition (l : List Alert)
    (h : ∀ a ∈ l, 1 ≤ riskD a ∧ riskD a ≤ 3) :
    countRisk l 3 + countRisk l 2 + countRisk l 1 = l.length := by
  induction l with
  | nil => simp [countRisk]
  | cons a t ih =>
    obtain ⟨h1, h3⟩ := h a (List.mem_cons_self a t)
    have ht := ih (fun b hb => h b (List.mem_cons_of_mem a hb))
    have hcase : riskD a = 1 ∨ riskD a = 2 ∨ riskD a = 3 := by omega
    simp only [countRisk, List.countP_cons, List.length_cons] at ht ⊢
    rcases hcase with hv | hv | hv <;> simp [hv] <;> try omega

/-- Inserting an alert of severity 0 anywhere leaves the line-44 filter
result unchanged. -/
theorem filteredAlerts_append_zero (xs ys : List Alert) (a : Alert)
    (h : riskOf a = some 0) :
    filteredAlerts (xs ++ a :: ys) = filteredAlerts (xs ++ ys) := by
  have hd : riskD a = 0 := by simp [riskD, h]
  simp [filteredAlerts, List.all_append, List.all_cons, List.filter_append,
    List.filter_cons, h, hd]

/-- The line-44 comprehension raises exactly when some alert's `riskcode`
fails integer conversion. -/
theorem filteredAlerts_eq_none_iff (l : List Alert) :
    filteredAlerts l = none ↔ ∃ a ∈ l, riskOf a = none := by
  constructor
  · intro hn
    by_contra hne
    push_neg at hne
    have hall : l.all (fun a => (riskOf a).isSome) = true := by
      rw [List.all_eq_true]
      intro a ha
      exact Option.isSome_iff_ne_none.mpr (hne a ha)
    rw [filteredAlerts, if_pos hall] at hn
    cases hn
  · rintro ⟨a, ha, hnone⟩
    have hall : l.all (fun a => (riskOf a).isSome) = false := by
      rw [List.all_eq_false]
      exact ⟨a, ha, by simp [hnone]⟩
    simp [filteredAlerts, hall]

/-! ## C1 — summary counts versus filtered alerts -/

/-- C1, counterexample: for the report `reportRisk4`, whose one alert has
`riskcode = "4"`, the filter of line 44 keeps the alert (its severity
converts to 4 > 0) while none of the three summary counters matches it, so
High + Medium + Low = 0 while the number of filtered alerts is 1: the
counts do not sum to the number of filtered alerts. -/
theorem c1_sum_counterexample :
    (generateHtmlData reportRisk4).map (fun r => r.high + r.medium + r.low) = some 0
    ∧ (filteredAlerts (extract reportRisk4).2).map List.length = some 1 := by
  decide

/-- C1 (amended): whenever `generate_html` succeeds and every alert's
severity code converts to an integer at most 3, the three summary counts
(High, Medium, Low) sum exactly to the number of filtered alerts, i.e. the
number of alerts whose `riskcode` converts to an integer greater than 0. -/
theorem c1_summary_counts_sum (d : ZapData) (r : Rendered)
    (hr : generateHtmlData d = some r)
    (hb : ∀ a ∈ (extract d).2, riskD a ≤ 3) :
    ∃ flt, filteredAlerts (extract d).2 = some flt
      ∧ r.high + r.medium + r.low = flt.length := by
  cases hf : filteredAlerts (extract d).2 with
  | none => rw [generateHtmlData, hf] at hr; cases hr
  | some alerts =>
    rw [generateHtmlData, hf] at hr
    obtain rfl : _ = r := Option.some.inj hr
    refine ⟨alerts, rfl, ?_⟩
    have halerts : alerts = (extract d).2.filter (fun a => 0 < riskD a) := by
      rw [filteredAlerts] at hf
      split_ifs at hf with hall
      exact (Option.some.inj hf).symm
    refine countRisk_partition alerts (fun a ha => ?_)
    rw [halerts] at ha
    have hmem := List.mem_filter.mp ha
    have hpos : 0 < riskD a := by simpa using hmem.2
    have hle : riskD a ≤ 3 := hb a hmem.1
    omega

/-- C1 witness: on `reportRisk3` (one alert, `riskcode = "3"`) the
hypotheses hold and the counts sum to the one filtered alert. -/
theorem c1_sum_witness :
    ∃ flt, filteredAlerts (extract reportRisk3).2 = some flt
      ∧ ((generateHtmlData reportRisk3).getD rendDefault).high
        + ((generateHtmlData reportRisk3).getD rendDefault).medium
        + ((generateHtmlData reportRisk3).getD rendDefault).low = flt.length :=
  c1_summary_counts_sum reportRisk3 ((generateHtmlData reportRisk3).getD rendDefault)
    rfl (by decide)

/-! ## C2 — no fallback from `riskcode` to the legacy `risk` field -/

/-- C2, counterexample: `legacyRiskAlert` has no `riskcode` key but has
`risk = "3"`.  The script nevertheless treats its severity as
`int('0') = 0` — the alert is filtered out and all summary counts stay 0 —
so the `risk` value does not determine the alert's severity. -/
theorem c2_legacy_risk_counterexample :
    legacyRiskAlert.riskcode = none ∧ legacyRiskAlert.risk = some "3"
    ∧ riskOf legacyRiskAlert = some 0
    ∧ filteredAlerts [legacyRiskAlert] = some []
    ∧ (generateHtmlData (mkZap "s" [legacyRiskAlert])).map
        (fun r => (r.high, r.medium, r.low)) = some (0, 0, 0) := by
  decide

/-- C2 (amended): when extracting an alert's severity the renderer reads
only the `riskcode` field, defaulting to `'0'` (severity 0) when it is
absent; the legacy `risk` field is never consulted, so changing it changes
neither the severity nor any rendered fragment of the alert. -/
theorem c2_riskcode_only (a : Alert) (v : Option String) :
    riskOf { a with risk := v } = riskOf a
    ∧ (a.riskcode = none → riskOf a = some 0)
    ∧ alertListRow { a with risk := v } = alertListRow a
    ∧ alertDetailBlock { a with risk := v } = alertDetailBlock a := by
  refine ⟨rfl, ?_, rfl, rfl⟩
  intro h
  show pyInt (a.riskcode.getD "0") = some 0
  rw [h]
  decide

/-- C2 witness: concrete instance of `c2_riskcode_only` on
`legacyRiskAlert`, whose `riskcode` is absent. -/
theorem c2_riskcode_only_witness :
    riskOf { legacyRiskAlert with risk := some "2" } = riskOf legacyRiskAlert
    ∧ riskOf legacyRiskAlert = some 0 :=
  ⟨(c2_riskcode_only legacyRiskAlert (some "2")).1,
   (c2_riskcode_only legacyRiskAlert (some "2")).2.1 rfl⟩

/-! ## C3 — severity-0 alerts are invisible -/

/-- C3: an alert whose severity code is 0 contributes nothing to any
rendered output: inserting it anywhere in a site's alert list leaves the
whole result of `generate_html` — summary counts, alert-list table and
alert-detail section included — unchanged. -/
theorem c3_severity_zero_invisible (nm : String) (xs ys : List Alert) (a : Alert)
    (h : riskOf a = some 0) :
    generateHtmlData (mkZap nm (xs ++ a :: ys))
      = generateHtmlData (mkZap nm (xs ++ ys)) := by
  have hf := filteredAlerts_append_zero xs ys a h
  rw [generateHtmlData, generateHtmlData, extract_mkZap, extract_mkZap]
  simp only [hf]
  rfl

/-- C3 witness: an alert with `riskcode = "0"` inserted into an empty
alert list changes nothing. -/
theorem c3_witness :
    generateHtmlData (mkZap "s" ([] ++ mkAlert (some "0") :: []))
      = generateHtmlData (mkZap "s" ([] ++ [])) :=
  c3_severity_zero_invisible "s" [] [] (mkAlert (some "0")) (by decide)

/-! ## C4 — CWE and WASC rendering conditions -/

/-- `Nat.toDigitsCore` never shrinks its accumulator. -/
theorem toDigitsCore_length_ge (b : Nat) (f : Nat) : ∀ (n : Nat) (acc : List Char),
    acc.length ≤ (Nat.toDigitsCore b f n acc).length := by
  induction f with
  | zero => intro n acc; simp [Nat.toDigitsCore]
  | succ f ih =>
    intro n acc
    by_cases h0 : n / b = 0
    · simp [Nat.toDigitsCore, h0]
    · simp only [Nat.toDigitsCore]
      rw [if_neg h0]
      exact le_trans (by simp) (ih (n / b) _)

/-- The decimal rendering of a natural number is never the empty string. -/
theorem toString_nat_ne_empty (n : Nat) : toString n ≠ "" := by
  intro h
  have key : 1 ≤ (Nat.toDigits 10 n).length := by
    unfold Nat.toDigits
    by_cases h0 : n / 10 = 0
    · simp [Nat.toDigitsCore, h0]
    · simp only [Nat.toDigitsCore]
      rw [if_neg h0]
      exact le_trans (by simp) (toDigitsCore_length_ge 10 n (n / 10) _)
  have hnil : Nat.toDigits 10 n = [] := congrArg String.data h
  rw [hnil] at key
  simp at key

/-- The `cweid`/`wascid` conversion of lines 176–179 yields a positive
integer exactly when the raw value is a non-empty digit string with
positive value. -/
theorem idInt_pos_iff (s : String) :
    0 < (if s.data ≠ [] ∧ s.data.all Char.isDigit then digitsVal s.data else 0)
      ↔ ParsesToPosInt s := by
  split_ifs with h
  · exact ⟨fun hp => ⟨h.1, h.2, hp⟩, fun hp => hp.2.2⟩
  · constructor
    · intro h0; exact absurd h0 (lt_irrefl 0)
    · intro hp; exact absurd ⟨hp.1, hp.2.1⟩ h

theorem cweidInt_pos_iff (a : Alert) :
    0 < cweidInt a ↔ ParsesToPosInt (a.cweid.getD "") :=
  idInt_pos_iff (a.cweid.getD "")

theorem wascidInt_pos_iff (a : Alert) :
    0 < wascidInt a ↔ ParsesToPosInt (a.wascid.getD "") :=
  idInt_pos_iff (a.wascid.getD "")

/-- The CWE cell of the detail block is non-empty exactly when the
converted id is positive. -/
theorem cweHtml_ne_iff (a : Alert) : cweHtml a ≠ "" ↔ 0 < cweidInt a := by
  rw [cweHtml]
  split_ifs with h
  · refine ⟨fun _ => h, fun _ he => ?_⟩
    have hd := congrArg String.data he
    rw [String.data_append] at hd
    exact absurd (List.append_eq_nil.mp hd).2 (by decide)
  · exact ⟨fun he => absurd rfl he, fun hp => absurd hp h⟩

/-- The WASC cell of the detail block is non-empty exactly when the
converted id is positive. -/
theorem wascHtml_ne_iff (a : Alert) : wascHtml a ≠ "" ↔ 0 < wascidInt a := by
  rw [wascHtml]
  split_ifs with h
  · exact ⟨fun _ => h, fun _ => toString_nat_ne_empty (wascidInt a)⟩
  · exact ⟨fun he => absurd rfl he, fun hp => absurd hp h⟩

/-- C4: in every rendered alert-detail block, the CWE hyperlink (pointing
at `https://cwe.mitre.org/data/definitions/<id>.html`) appears if and only
if the alert's `cweid` value parses to a positive integer, and the WASC id
text appears if and only if the alert's `wascid` value parses to a
positive integer. -/
theorem c4_cwe_wasc_iff (a : Alert) :
    (cweHtml a ≠ "" ↔ ParsesToPosInt (a.cweid.getD ""))
    ∧ (ParsesToPosInt (a.cweid.getD "") →
        cweHtml a = "<a href=\"https://cwe.mitre.org/data/definitions/"
          ++ toString (cweidInt a) ++ ".html\">" ++ toString (cweidInt a) ++ "</a>")
    ∧ (wascHtml a ≠ "" ↔ ParsesToPosInt (a.wascid.getD ""))
    ∧ (ParsesToPosInt (a.wascid.getD "") → wascHtml a = toString (wascidInt a)) := by
  refine ⟨(cweHtml_ne_iff a).trans (cweidInt_pos_iff a), ?_,
    (wascHtml_ne_iff a).trans (wascidInt_pos_iff a), ?_⟩
  · intro hp
    rw [cweHtml, if_pos ((cweidInt_pos_iff a).mpr hp)]
  · intro hp
    rw [wascHtml, if_pos ((wascidInt_pos_iff a).mpr hp)]

/-- C4 witness: `cweExAlert` has `cweid = "79"` and `wascid = "15"`; the
CWE link to `.../79.html` and the WASC text `15` are rendered. -/
theorem c4_witness :
    cweHtml cweExAlert
      = "<a href=\"https://cwe.mitre.org/data/definitions/79.html\">79</a>"
    ∧ wascHtml cweExAlert = "15" := by
  constructor
  · rw [(c4_cwe_wasc_iff cweExAlert).2.1 (by decide)]
    decide
  · rw [(c4_cwe_wasc_iff cweExAlert).2.2.2 (by decide)]
    decide

/-! ## C5 — escaping policy -/

/-- Skip an initial block when locating an infix. -/
theorem infix_skip {x r : List Char} (a : List Char) (h : x <:+: r) :
    x <:+: a ++ r :=
  h.trans ((List.suffix_append a r).isInfix)

/-- No expansion produced by `escapeChar` contains a raw `<`, `>`, double
quote or apostrophe. -/
theorem escapeChar_not_markup (c : Char) :
    '<' ∉ escapeChar c ∧ '>' ∉ escapeChar c
    ∧ Char.ofNat 34 ∉ escapeChar c ∧ Char.ofNat 39 ∉ escapeChar c := by
  unfold escapeChar
  split_ifs with h1 h2 h3 h4 h5
  · exact ⟨by decide, by decide, by decide, by decide⟩
  · exact ⟨by decide, by decide, by decide, by decide⟩
  · exact ⟨by decide, by decide, by decide, by decide⟩
  · exact ⟨by decide, by decide, by decide, by decide⟩
  · exact ⟨by decide, by decide, by decide, by decide⟩
  · refine ⟨?_, ?_, ?_, ?_⟩ <;> simp only [List.mem_singleton] <;> intro he
    · exact h2 he.symm
    · exact h3 he.symm
    · exact h4 he.symm
    · exact h5 he.symm

/-- `html.escape` output contains no raw markup-significant character. -/
theorem htmlEscape_not_markup (s : String) :
    '<' ∉ (htmlEscape s).data ∧ '>' ∉ (htmlEscape s).data
    ∧ Char.ofNat 34 ∉ (htmlEscape s).data ∧ Char.ofNat 39 ∉ (htmlEscape s).data := by
  refine ⟨?_, ?_, ?_, ?_⟩ <;>
  · intro hmem
    simp only [htmlEscape, List.mem_flatten, List.mem_map] at hmem
    obtain ⟨l, ⟨c, _hc, rfl⟩, hl⟩ := hmem
    have hc4 := escapeChar_not_markup c
    tauto

theorem flatten_map_singleton (l : List Char) :
    (l.map (fun c => [c])).flatten = l := by
  induction l with
  | nil => rfl
  | cons c t ih => simp [ih]

/-- The newline-to-break conversion leaves a newline-free string — in
particular any single-line markup — unchanged. -/
theorem newlineToBr_eq_self {s : String} (h : '\n' ∉ s.data) :
    newlineToBr s = s := by
  rw [newlineToBr]
  have hmap : s.data.map (fun c => if c = '\n' then "<br>".data else [c])
      = s.data.map (fun c => [c]) := by
    apply List.map_congr_left
    intro c hc
    rw [if_neg]
    intro he
    exact h (he ▸ hc)
  rw [hmap, flatten_map_singleton]

/-- C5: in the rendered output every instance-level free-text field (uri,
method, param, attack, evidence, otherinfo) appears through `html.escape`
— whose output contains no raw `<`, `>`, quote or apostrophe — while the
alert-level description and solution are inserted without escaping: only
newlines are converted to `<br>`, and a newline-free value passes through
verbatim. -/
theorem c5_escaping_policy (inst : Instance) (a : Alert) :
    ((htmlEscape (inst.uri.getD "")).data <:+: (instanceHtml inst).data)
    ∧ ((htmlEscape (inst.method.getD "")).data <:+: (instanceHtml inst).data)
    ∧ ((htmlEscape (inst.param.getD "")).data <:+: (instanceHtml inst).data)
    ∧ ((htmlEscape (inst.attack.getD "")).data <:+: (instanceHtml inst).data)
    ∧ ((htmlEscape (inst.evidence.getD "")).data <:+: (instanceHtml inst).data)
    ∧ ((htmlEscape (inst.otherinfo.getD "")).data <:+: (instanceHtml inst).data)
    ∧ (∀ s : String, '<' ∉ (htmlEscape s).data ∧ '>' ∉ (htmlEscape s).data
        ∧ Char.ofNat 34 ∉ (htmlEscape s).data ∧ Char.ofNat 39 ∉ (htmlEscape s).data)
    ∧ ((newlineToBr (a.desc.getD "")).data <:+: (alertDetailBlock a).data)
    ∧ ((newlineToBr (a.solution.getD "")).data <:+: (alertDetailBlock a).data)
    ∧ (∀ s : String, '\n' ∉ s.data → newlineToBr s = s) := by
  refine ⟨?_, ?_, ?_, ?_, ?_, ?_, htmlEscape_not_markup, ?_, ?_,
    fun s h => newlineToBr_eq_self h⟩ <;>
  · simp only [instanceHtml, alertDetailBlock, String.data_append,
      List.append_assoc]
    repeat
      first
        | exact (List.prefix_append _ _).isInfix
        | apply infix_skip

/-- C5 witness: a newline-free markup string is preserved verbatim by the
description/solution conversion. -/
theorem c5_witness : newlineToBr "<b>x</b>" = "<b>x</b>" :=
  (c5_escaping_policy instEx (mkAlert (some "1"))).2.2.2.2.2.2.2.2.2
    "<b>x</b>" (by decide)

/-! ## C6 — reference links -/

/-- C6: the rendered reference section holds exactly one hyperlink per
non-blank line of the `reference` field (split at newline characters), in
order, each displaying its own URL as its text; the joined links appear in
the alert-detail block; and the field `"http://a\nhttp://b"` yields
exactly the two links to `http://a` and `http://b`. -/
theorem c6_reference_links (a : Alert) :
    refLinks (a.reference.getD "")
      = (specNonBlankLines (a.reference.getD "")).map specRefAnchor
    ∧ ((referencesHtml (a.reference.getD "")).data <:+: (alertDetailBlock a).data)
    ∧ refLinks "http://a\nhttp://b"
      = [specRefAnchor "http://a", specRefAnchor "http://b"]
    ∧ referencesHtml "http://a\nhttp://b"
      = "<a href=\"http://a\">http://a</a><br><a href=\"http://b\">http://b</a>" := by
  refine ⟨rfl, ?_, by decide, by decide⟩
  simp only [alertDetailBlock, String.data_append, List.append_assoc]
  repeat
    first
      | exact (List.prefix_append _ _).isInfix
      | apply infix_skip

/-! ## C7 — missing, non-list or empty site -/

/-- C7: on any document whose top-level `site` value is absent, not a
list, or an empty list, `generate_html` does not fail: it proceeds with an
empty site name and an empty alert list — the site heading replacement is
an empty `<h2>`, every summary count is 0, and the alert-list and
alert-detail sections contain no alert entries. -/
theorem c7_missing_site_tolerated (d : ZapData)
    (h : d.site = SiteField.absent ∨ d.site = SiteField.nonList
      ∨ d.site = SiteField.list []) :
    extract d = ("", [])
    ∧ generateHtmlData d = some
      { site := "", siteHeading := "<h2></h2>",
        high := 0, medium := 0, low := 0,
        summary := summarySection 0 0 0,
        alertList := alertListHeader ++ alertListFooter,
        details := detailsHeader,
        versionHeading := "<h3>ZAP Version: " ++ d.version.getD "Unknown"
          ++ "</h3>" } := by
  have he : extract d = ("", []) := by
    rcases h with h | h | h <;> simp [extract, h]
  refine ⟨he, ?_⟩
  rw [generateHtmlData, he]
  simp only [filteredAlerts, List.all_nil, if_pos rfl, List.filter_nil]
  refine congrArg some ?_
  have hlist : alertListSection [] = alertListHeader ++ alertListFooter := by
    decide
  have hdet : alertDetailsSection [] = detailsHeader := by decide
  simp [siteHeadingOf, countRisk, hlist, hdet]

/-- C7 witness: the document with no `site` key at all. -/
theorem c7_witness :
    generateHtmlData ⟨SiteField.absent, none⟩ = some
      { site := "", siteHeading := "<h2></h2>",
        high := 0, medium := 0, low := 0,
        summary := summarySection 0 0 0,
        alertList := alertListHeader ++ alertListFooter,
        details := detailsHeader,
        versionHeading := "<h3>ZAP Version: Unknown</h3>" } := by
  rw [(c7_missing_site_tolerated ⟨SiteField.absent, none⟩ (Or.inl rfl)).2]
  decide

/-! ## C8 — command-line contract -/

/-- C8: with a number of positional arguments other than three, the
program prints the usage message and exits with status 1 writing no file;
with exactly three arguments, a readable template, a parseable report, a
successful render and a writable output path, it writes the output, prints
the confirmation message naming the output path, and exits with status 0. -/
theorem c8_cli_contract (prog : String) (args : List String) (env : Env) :
    (args.length ≠ 3 →
      mainRun (prog :: args) env
        = { exitCode := 1, stdout := [usageMsg], written := [] })
    ∧ (∀ tp jp op d r, args = [tp, jp, op] →
        env.template.isSome = true → env.zapJson = some d →
        generateHtmlData d = some r → env.writeOk = true →
        mainRun (prog :: args) env
          = { exitCode := 0,
              stdout := ["Report generated successfully: " ++ op],
              written := [(op, r)] }) := by
  constructor
  · intro h
    have h4 : (prog :: args).length ≠ 4 := by
      simp only [List.length_cons]
      omega
    rw [mainRun, if_pos h4]
  · rintro tp jp op d r rfl htem hjson hgen hw
    obtain ⟨t, ht⟩ := Option.isSome_iff_exists.mp htem
    simp [mainRun, ht, hjson, hgen, hw, List.getD]

/-- C8 witness: a one-element argv yields the usage outcome; a four-element
argv with a fully successful environment yields the success outcome. -/
theorem c8_witness :
    mainRun ["generate_report.py"] envOk
      = { exitCode := 1, stdout := [usageMsg], written := [] }
    ∧ mainRun ["generate_report.py", "t.html", "r.json", "out.html"] envOk
      = { exitCode := 0,
          stdout := ["Report generated successfully: out.html"],
          written := [("out.html",
            (generateHtmlData (mkZap "" [])).getD rendDefault)] } := by
  constructor
  · exact (c8_cli_contract "generate_report.py" [] envOk).1 (by decide)
  · exact (c8_cli_contract "generate_report.py" ["t.html", "r.json", "out.html"]
      envOk).2 "t.html" "r.json" "out.html" (mkZap "" [])
      ((generateHtmlData (mkZap "" [])).getD rendDefault) rfl rfl rfl rfl rfl

/-! ## C9 — read failures abort without output -/

/-- C9: on a three-argument invocation whose JSON report cannot be loaded
(missing file or malformed JSON), the process exits with a non-zero status
and the output path is never written; the same holds when the template
file cannot be loaded. -/
theorem c9_json_read_failure (prog tp jp op : String) (env : Env)
    (h : env.zapJson = none) :
    (mainRun [prog, tp, jp, op] env).exitCode = 1
    ∧ (mainRun [prog, tp, jp, op] env).written = []
    ∧ (∀ env2 : Env, env2.template = none →
        (mainRun [prog, tp, jp, op] env2).exitCode = 1
        ∧ (mainRun [prog, tp, jp, op] env2).written = []) := by
  refine ⟨?_, ?_, ?_⟩
  · cases ht : env.template <;> simp [mainRun, ht, h]
  · cases ht : env.template <;> simp [mainRun, ht, h]
  · intro env2 ht
    constructor <;> simp [mainRun, ht]

/-- C9 witness: concrete invocation against `envNoJson`. -/
theorem c9_witness :
    (mainRun ["p", "t.html", "missing.json", "out.html"] envNoJson).exitCode = 1
    ∧ (mainRun ["p", "t.html", "missing.json", "out.html"] envNoJson).written
      = [] :=
  ⟨(c9_json_read_failure "p" "t.html" "missing.json" "out.html" envNoJson rfl).1,
   (c9_json_read_failure "p" "t.html" "missing.json" "out.html" envNoJson rfl).2.1⟩

/-! ## C10 — partiality on non-numeric riskcode -/

/-- C10: `generate_html` is not total: it raises exactly when some alert's
`riskcode` value fails integer conversion — concretely it aborts on the
report whose alert has `riskcode = "high"` — while other malformed
optional fields are tolerated: non-numeric `cweid`/`wascid` values and an
absent `site` key still render. -/
theorem c10_riskcode_partiality (d : ZapData) :
    (generateHtmlData d = none ↔ ∃ a ∈ (extract d).2, riskOf a = none)
    ∧ riskOf (mkAlert (some "high")) = none
    ∧ generateHtmlData reportRiskHigh = none
    ∧ (generateHtmlData reportOddIds).isSome = true
    ∧ (generateHtmlData ⟨SiteField.absent, none⟩).isSome = true := by
  refine ⟨?_, by decide, by decide, by decide, by decide⟩
  rw [← filteredAlerts_eq_none_iff]
  cases hf : filteredAlerts (extract d).2 <;> simp [generateHtmlData, hf]

/-- C10 witness: the failure characterisation applied to the concrete
report whose alert has `riskcode = "high"`. -/
theorem c10_witness : generateHtmlData reportRiskHigh = none :=
  (c10_riskcode_partiality reportRiskHigh).1.mpr
    ⟨mkAlert (some "high"), by decide, by decide⟩

end ZapReport
